import Mathlib

/-!
Verification of the classroom AI analysis server
(`classroom-ai-system/ai_server`): fatigue classification, attention
scoring, behavior tagging, engagement aggregation, the in-memory state
store, and the broadcast hub, shallowly embedded in Lean.

Modelling conventions: floating-point values are rationals; Python
dictionaries keyed by strings are total functions `String → _` whose
value on an absent key is the dictionary's default; `collections.deque`
with `maxlen = m` is `dqAppend m`; `np.sum` over a boolean comparison
array is `List.countP`; an exception raised while one student is being
processed is an oracle `fail : Student → Bool` marking that student.
-/

namespace ClassroomAI

/-- Append on a `deque(maxlen = m)`: append on the right, then drop from
the left whatever exceeds the capacity `m`. -/
def dqAppend (m : Nat) (l : List α) (x : α) : List α :=
  let l' := l ++ [x]
  l'.drop (l'.length - m)

/-- `np.clip x lo hi`. -/
def clip (x lo hi : ℚ) : ℚ := min (max x lo) hi

/-- Arithmetic mean of a list of rationals (`np.mean`); every caller
guards against the empty list. -/
def meanQ (l : List ℚ) : ℚ := l.sum / l.length

/-- `sub` occurs inside `s` (Python's `in` on strings), via `splitOn`:
splitting on an occurring separator yields more than one piece. -/
def hasSubstr (s sub : String) : Bool := (s.splitOn sub).length > 1

/-- Head pose as the analyzers read it: `head_pose.get('yaw', 0)` and
`head_pose.get('pitch', 0)`; a missing key stands for 0. -/
structure HeadPose where
  yaw : ℚ
  pitch : ℚ
deriving DecidableEq

/-- One facial landmark point `[x, y, z]`. -/
structure Landmark where
  x : ℚ
  y : ℚ
  z : ℚ
deriving DecidableEq

instance : Inhabited Landmark := ⟨⟨0, 0, 0⟩⟩

/-! ## AttentionAnalyzer

`models/attemtion_net.py` lines 15-55; `main.py` lines 155-179 repeats
the same logic with the thresholds written inline. -/

namespace AttentionAnalyzer

/-- `AttentionAnalyzer.predict(landmarks, head_pose)`: start at 100,
subtract the yaw penalty (1.5 points per degree beyond 15, capped at
40), subtract 25 for `pitch > 20` or else 15 for `pitch < -15`, and,
when more than 468 landmarks are present, subtract 15 when the nose tip
(index 1) deviates horizontally from the mean of the first 100 points by
more than 0.08; finally clip to `[0, 100]`. -/
def predict (landmarks : List Landmark) (hp : HeadPose) : ℚ :=
  let score : ℚ := 100
  let yaw := |hp.yaw|
  let pitch := hp.pitch
  let score := if yaw > 15 then score - min ((yaw - 15) * (3/2)) 40 else score
  let score :=
    if pitch > 20 then score - 25
    else if pitch < -15 then score - 15
    else score
  let score :=
    if landmarks.length > 468 then
      let faceCenterX := meanQ ((landmarks.take 100).map Landmark.x)
      let noseTip := landmarks.getD 1 default
      let deviation := |noseTip.x - faceCenterX|
      if deviation > 2/25 then score - 15 else score
    else score
  clip score 0 100

end AttentionAnalyzer

/-- The AttentionScorer of the spec, written as a sum of penalties:
100 minus `min((|yaw|-15)*1.5, 40)` when `|yaw|>15`, minus 25 when
`pitch>20`, minus 15 when `pitch<-15`, minus 15 more when the landmark
sequence has more than 468 points and the horizontal offset of landmark
index 1 from the mean of the first 100 points exceeds 0.08, the result
clipped to `[0,100]`. -/
def attentionSpecScore (landmarks : List Landmark) (hp : HeadPose) : ℚ :=
  let yawPenalty : ℚ := if |hp.yaw| > 15 then min ((|hp.yaw| - 15) * (3/2)) 40 else 0
  let pitchPenalty : ℚ :=
    if hp.pitch > 20 then 25 else if hp.pitch < -15 then 15 else 0
  let meshPenalty : ℚ :=
    if landmarks.length > 468 then
      if |(landmarks.getD 1 default).x - meanQ ((landmarks.take 100).map Landmark.x)| > 2/25
      then 15 else 0
    else 0
  clip (100 - yawPenalty - pitchPenalty - meshPenalty) 0 100

/-! ## FatigueAnalyzer of `models/fatigue_net.py` (lines 25-62)

Per-student windows: `ear_history` is a deque with `maxlen = 30` (the
constructor's default `history_size`), `mar_history` a deque with
`maxlen = 10`. -/

namespace FatigueNet

/-- The per-student window maps of `FatigueAnalyzer.__init__`. -/
structure State where
  earHist : String → List ℚ
  marHist : String → List ℚ

/-- A fresh `FatigueAnalyzer`: both `defaultdict`s are empty. -/
def State.init : State := ⟨fun _ => [], fun _ => []⟩

/-- `FatigueAnalyzer.predict(ear, mar, student_id)`: append both samples,
return `alert` under 10 buffered ear samples, otherwise classify by
PERCLOS (`np.sum(ear_array < 0.2) / len`) and the windowed yawn test
(`np.mean(mar_array) > 0.5`). -/
def predict (st : State) (ear mar : ℚ) (sid : String) : State × String :=
  let earW := dqAppend 30 (st.earHist sid) ear
  let marW := dqAppend 10 (st.marHist sid) mar
  let st' : State :=
    ⟨fun s => if s = sid then earW else st.earHist s,
     fun s => if s = sid then marW else st.marHist s⟩
  if earW.length < 10 then (st', "alert")
  else
    let closedFrames := earW.countP (fun e => decide (e < 1/5))
    let perclos : ℚ := (closedFrames : ℚ) / earW.length
    let isYawning := meanQ marW > 1/2
    if perclos > 3/10 then (st', "drowsy")
    else if perclos > 3/20 ∨ isYawning then (st', "tired")
    else (st', "alert")

end FatigueNet

/-- PERCLOS of a buffered window as the spec words it: the fraction of
buffered ear values below the closed-eye threshold 0.2. -/
def perclosOf (w : List ℚ) : ℚ := ((w.filter (fun e => decide (e < 1/5))).length : ℚ) / w.length

/-- The yawn flag computed from the buffered mouth-aspect-ratio window:
its mean exceeds the yawn threshold 0.5. -/
def yawnFlag (w : List ℚ) : Prop := meanQ w > 1/2

instance (w : List ℚ) : Decidable (yawnFlag w) := by unfold yawnFlag; infer_instance

/-- The FatigueClassifier decision of the spec, on the two buffered
windows after the new samples are appended: `alert` under 10 ear
samples; `drowsy` when PERCLOS > 0.3; `tired` when PERCLOS > 0.15 or
the yawn flag is set; else `alert`. -/
def specFatigueLevel (earW marW : List ℚ) : String :=
  if earW.length < 10 then "alert"
  else if perclosOf earW > 3/10 then "drowsy"
  else if perclosOf earW > 3/20 ∨ yawnFlag marW then "tired"
  else "alert"

/-! ## FatigueAnalyzer of `main.py` (lines 181-205)

The inline near-duplicate the server actually instantiates: a single
`ear_history` deque (`maxlen = 30`), no mar window, and thresholds
0.7 / 0.3 with an instantaneous yawn test `mar > 0.5`. -/

/-- The per-student ear-history map of `main.py`'s `FatigueAnalyzer`. -/
abbrev EarMap := String → List ℚ

namespace MainFatigue

/-- `FatigueAnalyzer.predict(ear, mar, student_id)` of `main.py`:
append the ear sample; `alert` under 10 samples; else `drowsy` when
`closed_ratio > 0.7`, `tired` when `closed_ratio > 0.3 or mar > 0.5`,
else `alert`. -/
def predict (h : EarMap) (ear mar : ℚ) (sid : String) : EarMap × String :=
  let hist := dqAppend 30 (h sid) ear
  let h' : EarMap := fun s => if s = sid then hist else h s
  if hist.length < 10 then (h', "alert")
  else
    let closedFrames := hist.countP (fun e => decide (e < 1/5))
    let closedFrac : ℚ := (closedFrames : ℚ) / hist.length
    if closedFrac > 7/10 then (h', "drowsy")
    else if closedFrac > 3/10 ∨ mar > 1/2 then (h', "tired")
    else (h', "alert")

end MainFatigue

/-! ## BehaviorAnalyzer of `analysis/benavior_engine.py` (lines 18-57) -/

namespace BehaviorEngine

/-- The gaze-direction block of `BehaviorAnalyzer.analyze`: thresholds
`yaw_front = 15`, `yaw_side = 45`, `pitch_down = 25`. -/
def directionPart (hp : HeadPose) : List String :=
  if |hp.yaw| ≤ 15 then
    if |hp.pitch| ≤ 20 then ["looking_front"]
    else if hp.pitch > 25 then ["looking_down"]
    else []
  else if |hp.yaw| > 45 then ["turning_around"]
  else if hp.yaw > 20 then ["looking_left"]
  else if hp.yaw < -20 then ["looking_right"]
  else []

/-- The fatigue-related block of `BehaviorAnalyzer.analyze`: `drowsy`
adds `eyes_closed` plus, beyond `pitch_sleep = 35`, `head_dropping`;
`tired` adds `rubbing_eyes`. -/
def fatiguePart (hp : HeadPose) (fatigue : String) : List String :=
  if fatigue = "drowsy" then
    "eyes_closed" :: (if hp.pitch > 35 then ["head_dropping"] else [])
  else if fatigue = "tired" then ["rubbing_eyes"]
  else []

/-- The posture-anomaly block of `BehaviorAnalyzer.analyze`:
`|pitch| > 40` adds `head_down`. -/
def posturePart (hp : HeadPose) : List String :=
  if |hp.pitch| > 40 then ["head_down"] else []

/-- `BehaviorAnalyzer.analyze(head_pose, fatigue)`: the three blocks
append their tags to one list in source order. -/
def analyze (hp : HeadPose) (fatigue : String) : List String :=
  directionPart hp ++ fatiguePart hp fatigue ++ posturePart hp

end BehaviorEngine

/-- The five direction tags of the rule table. -/
def directionTags : List String :=
  ["looking_front", "looking_down", "turning_around", "looking_left", "looking_right"]

/-- First match wins over an ordered rule table: the tag of the first
rule whose predicate holds, if any. -/
def firstMatch (rules : List ((HeadPose → Bool) × String)) (hp : HeadPose) : Option String :=
  match rules with
  | [] => none
  | (p, t) :: rest => if p hp then some t else firstMatch rest hp

/-- The spec's ordered direction rules: `|yaw|≤15 ∧ |pitch|≤20 →
looking_front`; `|yaw|≤15 ∧ pitch>25 → looking_down`; `|yaw|>45 →
turning_around`; `yaw>20 → looking_left`; `yaw<-20 → looking_right`. -/
def specDirectionRules : List ((HeadPose → Bool) × String) :=
  [(fun hp => decide (|hp.yaw| ≤ 15 ∧ |hp.pitch| ≤ 20), "looking_front"),
   (fun hp => decide (|hp.yaw| ≤ 15 ∧ hp.pitch > 25), "looking_down"),
   (fun hp => decide (|hp.yaw| > 45), "turning_around"),
   (fun hp => decide (hp.yaw > 20), "looking_left"),
   (fun hp => decide (hp.yaw < -20), "looking_right")]

/-! ## BehaviorAnalyzer of `main.py` (lines 207-228)

The inline near-duplicate: strict `<` front test, a `looking_down` rule
not guarded by yaw, no left/right tags, and `head_dropping` for tired
students too. -/

namespace MainBehavior

/-- `BehaviorAnalyzer.analyze(head_pose, fatigue)` of `main.py`. -/
def analyze (hp : HeadPose) (fatigue : String) : List String :=
  (if |hp.yaw| < 15 ∧ |hp.pitch| < 20 then ["looking_front"]
   else if hp.pitch > 25 then ["looking_down"]
   else if |hp.yaw| > 45 then ["turning_around"]
   else []) ++
  (if fatigue = "drowsy" then ["eyes_closed"] else []) ++
  (if hp.pitch > 35 ∧ (fatigue = "drowsy" ∨ fatigue = "tired")
   then ["head_dropping"] else [])

end MainBehavior

/-! ## Engagement and suggestions (`main.py` lines 236-270) -/

/-- The fatigue penalty dictionary of `calculate_engagement` read with
`penalties.get(fatigue, 0)`. -/
def penaltyOf (fatigue : String) : ℚ :=
  (List.lookup fatigue [("alert", (0 : ℚ)), ("tired", -10), ("drowsy", -30)]).getD 0

/-- The behavior bonus dictionary of `calculate_engagement` read with
`bonuses.get(behavior, 0)`. -/
def bonusOf (behavior : String) : ℚ :=
  (List.lookup behavior
    [("looking_front", (5 : ℚ)), ("turning_around", -5), ("head_dropping", -20)]).getD 0

/-- `calculate_engagement(attention, fatigue, behaviors)`: start from the
attention score, add the fatigue penalty, add each behavior's bonus in
turn, clip to `[0, 100]`. -/
def calculate_engagement (attention : ℚ) (fatigue : String) (behaviors : List String) : ℚ :=
  clip (behaviors.foldl (fun s b => s + bonusOf b) (attention + penaltyOf fatigue)) 0 100

/-- The EngagementAggregator formula of the spec:
`clip(attention + fatigue_penalty(fatigue) + Σ behavior_bonus(tag), 0, 100)`. -/
def specEngagement (attention : ℚ) (fatigue : String) (behaviors : List String) : ℚ :=
  clip (attention + penaltyOf fatigue + (behaviors.map bonusOf).sum) 0 100

/-- `generate_suggestions(attention, fatigue, behaviors)` of `main.py`. -/
def generate_suggestions (attention : ℚ) (fatigue : String) (behaviors : List String) :
    List String :=
  (if fatigue = "drowsy" then ["该学生处于困倦状态，建议轻声提醒或让其站立片刻"]
   else if fatigue = "tired" then ["学生略显疲劳，可通过提问吸引注意力"]
   else []) ++
  (if attention < 40 then ["注意力严重分散，建议走到学生附近进行干预"]
   else if attention < 60 then ["注意力一般，建议增加互动环节"]
   else []) ++
  (if behaviors.contains "turning_around" then ["学生正在与后方交流，需维持课堂纪律"] else [])

/-! ## Per-student data and statuses (`main.py` lines 120-148) -/

/-- `StudentData`: one student's per-frame features. The eye and mouth
aspect ratios are the fields `ear` and `mar`. -/
structure Student where
  student_id : String
  face_bbox : List ℤ
  landmarks : List Landmark
  head_pose : HeadPose
  ear : ℚ
  mar : ℚ
  local_timestamp : ℚ

/-- `StudentStatus`: one student's per-cycle analysis result. -/
structure StudentStatus where
  student_id : String
  attention_score : ℚ
  fatigue_level : String
  behavior_tags : List String
  engagement_index : ℚ
  suggestions : List String

/-- `AnalysisRequest`: one analysis cycle's batch. -/
structure Request where
  classroom_id : String
  course_id : String
  timestamp : String
  student_count : ℤ
  students : List Student

/-- `AnalysisResponse`: one cycle's aggregate result. -/
structure Response where
  classroom_id : String
  overall_attention : ℚ
  student_statuses : List StudentStatus
  teaching_recommendations : List String
  alert_flags : List String

/-! ## Classroom-level aggregation (`main.py` lines 272-313) -/

/-- `generate_teaching_recommendations(statuses, course_id)`. -/
def generate_teaching_recommendations (statuses : List StudentStatus) (course_id : String) :
    List String :=
  if statuses.isEmpty then ["等待数据接入..."]
  else
    let n : ℚ := statuses.length
    let avgAttention := meanQ (statuses.map StudentStatus.attention_score)
    let drowsyFrac : ℚ :=
      ((statuses.filter (fun s => decide (s.fatigue_level = "drowsy"))).length : ℚ) / n
    let lowEngagement : ℚ :=
      ((statuses.filter (fun s => decide (s.engagement_index < 40))).length : ℚ) / n
    let recs :=
      (if avgAttention < 50 then ["🚨 整体注意力偏低，建议立即插入互动环节或短视频"]
       else if avgAttention < 70 then ["⚠️ 部分学生走神，建议增加提问频率"]
       else []) ++
      (if drowsyFrac > 3/10 then ["😴 超过30%学生困倦，建议进行2-3分钟课间活动"]
       else if drowsyFrac > 1/10 then ["☕ 部分学生疲劳，可适当提高音量或改变语速"]
       else []) ++
      (if lowEngagement > 1/2 then ["📉 半数学生参与度不足，建议检查当前内容难度"] else []) ++
      (if hasSubstr course_id.toLower "math" ∧ avgAttention < 65
       then ["🧮 数学课程较抽象，建议增加可视化演示"] else [])
    if recs.isEmpty then ["✅ 当前课堂状态良好，继续保持"] else recs

/-- `detect_anomalies(statuses)`. -/
def detect_anomalies (statuses : List StudentStatus) : List String :=
  let critical := statuses.filter (fun s => decide (s.engagement_index < 20))
  let sleeping := statuses.filter (fun s => s.behavior_tags.contains "head_dropping")
  (if critical.length > 0
   then ["发现" ++ toString critical.length ++ "名学生状态异常，需要立即关注"] else []) ++
  (if sleeping.length > 2
   then ["检测到" ++ toString sleeping.length ++ "名学生可能已进入睡眠状态"] else [])

/-! ## MemoryStore (`main.py` lines 50-87) -/

/-- `MemoryStore`: the in-memory latest-snapshot map and per-classroom
bounded history ring (`deque(maxlen = max_history)`). -/
structure MemoryStore (ε : Type) where
  classroom_data : String → Option ε
  history_data : String → List ε
  max_history : ℕ

/-- A fresh `MemoryStore(max_history = m)`. -/
def MemoryStore.empty (ε : Type) (m : ℕ) : MemoryStore ε :=
  ⟨fun _ => none, fun _ => [], m⟩

/-- `MemoryStore.set_latest(classroom_id, data)`: full overwrite. -/
def MemoryStore.set_latest (st : MemoryStore ε) (cid : String) (d : ε) : MemoryStore ε :=
  { st with classroom_data := fun c => if c = cid then some d else st.classroom_data c }

/-- `MemoryStore.add_history(classroom_id, data)`: append to the
classroom's capacity-`max_history` ring. -/
def MemoryStore.add_history (st : MemoryStore ε) (cid : String) (d : ε) : MemoryStore ε :=
  { st with history_data := fun c =>
      if c = cid then dqAppend st.max_history (st.history_data c) d else st.history_data c }

/-- `MemoryStore.get_history(classroom_id, limit)`: Python's
`list(deque)[-limit:]`. A negative-index slice `[-limit:]` with
`limit > 0` keeps the last `limit` elements, but `[-0:]` is `[0:]` and
keeps the whole list. -/
def MemoryStore.get_history (st : MemoryStore ε) (cid : String) (limit : ℕ) : List ε :=
  let l := st.history_data cid
  if limit = 0 then l else l.drop (l.length - limit)

/-! ## ConnectionManager (`main.py` lines 90-115) -/

namespace ConnectionManager

/-- `ConnectionManager.broadcast(classroom_id, message)` over the
per-classroom connection lists `st`, with `ok c = true` when
`connection.send_text` succeeds on `c` and `false` when it raises.
Returns the new connection-list map and the connections whose send
succeeded, in delivery order: the loop attempts every registered
connection, collects the failing ones in `disconnected`, and afterwards
removes each of them with `disconnect` (remove the first occurrence when
present). -/
def broadcast [DecidableEq α] (st : String → List α) (ok : α → Bool) (cid : String) :
    (String → List α) × List α :=
  let conns := st cid
  let delivered := conns.filter ok
  let disconnected := conns.filter (fun c => !ok c)
  let remaining := disconnected.foldl List.erase conns
  (fun c => if c = cid then remaining else st c, delivered)

end ConnectionManager

/-! ## The analysis cycle (`main.py` lines 316-372)

`analyze_classroom` runs the per-student loop inside one `try`; any
exception aborts the cycle with an HTTP 500 and never reaches the
deferred `save_and_broadcast`, which alone calls `store.set_latest` and
`store.add_history`. The fatigue analyzer's window map, however, is
process-global state already mutated by the completed iterations. -/

/-- One iteration of the student loop: attention, fatigue (mutating the
ear-window map), behaviors, engagement, suggestions, packed into a
`StudentStatus`. -/
def processStudent (fs : EarMap) (s : Student) : EarMap × StudentStatus :=
  let attention := AttentionAnalyzer.predict s.landmarks s.head_pose
  let r := MainFatigue.predict fs s.ear s.mar s.student_id
  let behaviors := MainBehavior.analyze s.head_pose r.2
  let engagement := calculate_engagement attention r.2 behaviors
  (r.1, ⟨s.student_id, attention, r.2, behaviors, engagement,
         generate_suggestions attention r.2 behaviors⟩)

/-- The per-student loop with an error oracle: `fail s = true` means an
internal computation error is raised while student `s` is being
processed (before its fatigue append, as when `attention_analyzer
.predict` raises). `none` aborts the cycle; the ear-window map survives
because it is process-global. -/
def runStudents (fail : Student → Bool) :
    EarMap → List Student → EarMap × Option (List StudentStatus)
  | fs, [] => (fs, some [])
  | fs, s :: rest =>
    if fail s then (fs, none)
    else
      let r := processStudent fs s
      match runStudents fail r.1 rest with
      | (fs'', some sts) => (fs'', some (r.2 :: sts))
      | (fs'', none) => (fs'', none)

/-- `analyze_classroom(request)` together with the deferred
`save_and_broadcast` commit: on success the response is stored with
`set_latest` then `add_history`; on an aborted cycle the HTTP 500 path
is taken and the store is not touched. -/
def analyze_classroom (fail : Student → Bool) (fs : EarMap)
    (store : MemoryStore Response) (req : Request) :
    Option Response × EarMap × MemoryStore Response :=
  match runStudents fail fs req.students with
  | (fs', none) => (none, fs', store)
  | (fs', some statuses) =>
    let overall :=
      if statuses.isEmpty then 0 else meanQ (statuses.map StudentStatus.attention_score)
    let resp : Response :=
      ⟨req.classroom_id, overall, statuses,
       generate_teaching_recommendations statuses req.course_id,
       detect_anomalies statuses⟩
    (some resp, fs',
     (store.set_latest req.classroom_id resp).add_history req.classroom_id resp)

/-! ## Concrete inputs for the witnesses -/

/-- A student whose processing raises (picked out by `failB`). -/
def studentB : Student := ⟨"B", [], [], ⟨0, 0⟩, 1/10, 1/20, 0⟩

/-- A student with open eyes in the batch ahead of `studentB`. -/
def studentA : Student := ⟨"A", [], [], ⟨0, 0⟩, 1/10, 1/20, 0⟩

/-- The error oracle of the witnesses: processing `studentB` raises. -/
def failB : Student → Bool := fun s => s.student_id == "B"

/-- A one-student batch consisting of the failing student. -/
def reqB : Request := ⟨"room_101", "math_1", "t0", 1, [studentB]⟩

/-- An ear-window map in which student `A` already has 8 buffered
closed-eye samples. -/
def fsA : EarMap := fun sid => if sid = "A" then List.replicate 8 (1/10) else []

/-! ## Helper lemmas -/

theorem clip_nonneg (x : ℚ) : 0 ≤ clip x 0 100 :=
  le_min (le_max_right x 0) (by norm_num)

theorem clip_le (x : ℚ) : clip x 0 100 ≤ 100 :=
  min_le_right _ _

theorem foldl_add_eq_add_sum (g : α → ℚ) (l : List α) (i : ℚ) :
    l.foldl (fun s b => s + g b) i = i + (l.map g).sum := by
  induction l generalizing i with
  | nil => simp
  | cons x xs ih => simp [ih, add_assoc]

/-! ## The claims -/

/-- C4: `AttentionAnalyzer.predict` equals the spec's penalty formula —
100 minus the capped yaw penalty when `|yaw|>15`, minus 25 when
`pitch>20`, minus 15 when `pitch<-15`, minus 15 more on a full mesh with
nose-tip offset beyond 0.08, clipped to `[0,100]` — and in particular
the score at `yaw=0, pitch=0, landmarks=[]` is 100. -/
theorem attention_score_formula :
    (∀ (lm : List Landmark) (hp : HeadPose),
        AttentionAnalyzer.predict lm hp = attentionSpecScore lm hp)
    ∧ AttentionAnalyzer.predict [] ⟨0, 0⟩ = 100 := by
  constructor
  · intro lm hp
    simp only [AttentionAnalyzer.predict, attentionSpecScore]
    split_ifs <;> ring_nf
  · decide

/-- C5: `calculate_engagement` equals the spec's formula
`clip(attention + fatigue_penalty + Σ behavior_bonus, 0, 100)` with
penalties alert=0, tired=-10, drowsy=-30 and bonuses looking_front=+5,
turning_around=-5, head_dropping=-20, all other tags 0, and the result
is always within `[0, 100]`. -/
theorem engagement_formula :
    ∀ (a : ℚ) (f : String) (bs : List String),
      calculate_engagement a f bs = specEngagement a f bs
      ∧ 0 ≤ calculate_engagement a f bs ∧ calculate_engagement a f bs ≤ 100 := by
  intro a f bs
  refine ⟨?_, clip_nonneg _, clip_le _⟩
  simp [calculate_engagement, specEngagement, foldl_add_eq_add_sum]

/-- C1: `FatigueAnalyzer.predict` of `models/fatigue_net.py` appends the
ear sample to the student's capacity-30 ear window and the mar sample to
the capacity-10 mar window, and returns the spec's decision on the
updated windows: `alert` under 10 ear samples, else `drowsy` iff
PERCLOS > 0.3, else `tired` iff PERCLOS > 0.15 or the windowed yawn
flag, else `alert`. -/
theorem fatigue_net_classify :
    ∀ (st : FatigueNet.State) (ear mar : ℚ) (sid : String),
      FatigueNet.predict st ear mar sid =
        (⟨fun s => if s = sid then dqAppend 30 (st.earHist sid) ear else st.earHist s,
          fun s => if s = sid then dqAppend 10 (st.marHist sid) mar else st.marHist s⟩,
         specFatigueLevel (dqAppend 30 (st.earHist sid) ear)
           (dqAppend 10 (st.marHist sid) mar)) := by
  intro st ear mar sid
  simp only [FatigueNet.predict, specFatigueLevel, perclosOf, yawnFlag,
    List.countP_eq_length_filter]
  split_ifs <;> rfl

theorem mem_directionPart {t : String} {hp : HeadPose}
    (h : t ∈ BehaviorEngine.directionPart hp) : t ∈ directionTags := by
  unfold BehaviorEngine.directionPart at h
  split_ifs at h <;> simp_all [directionTags]

theorem mem_fatiguePart {t : String} {hp : HeadPose} {f : String}
    (h : t ∈ BehaviorEngine.fatiguePart hp f) :
    t = "eyes_closed" ∨ t = "head_dropping" ∨ t = "rubbing_eyes" := by
  unfold BehaviorEngine.fatiguePart at h
  split_ifs at h <;> simp_all
  tauto

theorem mem_posturePart {t : String} {hp : HeadPose}
    (h : t ∈ BehaviorEngine.posturePart hp) : t = "head_down" := by
  unfold BehaviorEngine.posturePart at h
  split_ifs at h <;> simp_all

theorem filter_dir_fatiguePart (hp : HeadPose) (f : String) :
    (BehaviorEngine.fatiguePart hp f).filter (directionTags.contains ·) = [] := by
  unfold BehaviorEngine.fatiguePart
  split_ifs <;> rfl

theorem filter_dir_posturePart (hp : HeadPose) :
    (BehaviorEngine.posturePart hp).filter (directionTags.contains ·) = [] := by
  unfold BehaviorEngine.posturePart
  split_ifs <;> rfl

theorem filter_dir_directionPart (hp : HeadPose) :
    (BehaviorEngine.directionPart hp).filter (directionTags.contains ·) =
      BehaviorEngine.directionPart hp := by
  unfold BehaviorEngine.directionPart
  split_ifs <;> rfl

theorem directionPart_firstMatch (hp : HeadPose) :
    BehaviorEngine.directionPart hp = (firstMatch specDirectionRules hp).toList := by
  by_cases h1 : |hp.yaw| ≤ 15
  · have hn45 : ¬(|hp.yaw| > 45) := by linarith
    have hn20 : ¬(hp.yaw > 20) := by linarith [le_abs_self hp.yaw]
    have hnm20 : ¬(hp.yaw < -20) := by linarith [neg_abs_le hp.yaw]
    by_cases h2 : |hp.pitch| ≤ 20
    · simp [BehaviorEngine.directionPart, firstMatch, specDirectionRules, h1, h2]
    · by_cases h3 : hp.pitch > 25
      · simp [BehaviorEngine.directionPart, firstMatch, specDirectionRules, h1, h2, h3]
      · simp [BehaviorEngine.directionPart, firstMatch, specDirectionRules, h1, h2, h3,
          hn45, hn20, hnm20]
  · by_cases h4 : |hp.yaw| > 45
    · simp [BehaviorEngine.directionPart, firstMatch, specDirectionRules, h1, h4]
    · by_cases h5 : hp.yaw > 20
      · simp [BehaviorEngine.directionPart, firstMatch, specDirectionRules, h1, h4, h5]
      · by_cases h6 : hp.yaw < -20
        · simp [BehaviorEngine.directionPart, firstMatch, specDirectionRules, h1, h4, h5, h6]
        · simp [BehaviorEngine.directionPart, firstMatch, specDirectionRules, h1, h4, h5, h6]

/-- C2: the direction tags emitted by `BehaviorAnalyzer.analyze` of
`benavior_engine.py` are exactly the first matching rule of the spec's
ordered direction table, so at most one direction tag is emitted, and a
pose with `|yaw| > 45` is tagged `turning_around` and never
`looking_down`. -/
theorem behavior_direction_first_match :
    ∀ (hp : HeadPose) (fatigue : String),
      (BehaviorEngine.analyze hp fatigue).filter (directionTags.contains ·) =
        (firstMatch specDirectionRules hp).toList
      ∧ ((BehaviorEngine.analyze hp fatigue).filter (directionTags.contains ·)).length ≤ 1
      ∧ (|hp.yaw| > 45 →
          "turning_around" ∈ BehaviorEngine.analyze hp fatigue
          ∧ "looking_down" ∉ BehaviorEngine.analyze hp fatigue) := by
  intro hp fatigue
  have hfil : (BehaviorEngine.analyze hp fatigue).filter (directionTags.contains ·) =
      (firstMatch specDirectionRules hp).toList := by
    rw [BehaviorEngine.analyze, List.filter_append, List.filter_append,
      filter_dir_fatiguePart, filter_dir_posturePart, filter_dir_directionPart,
      directionPart_firstMatch]
    simp
  refine ⟨hfil, ?_, ?_⟩
  · rw [hfil]
    cases firstMatch specDirectionRules hp <;> simp
  · intro h45
    have h1 : ¬(|hp.yaw| ≤ 15) := by linarith
    have hdir : BehaviorEngine.directionPart hp = ["turning_around"] := by
      simp [BehaviorEngine.directionPart, h1, h45]
    constructor
    · simp [BehaviorEngine.analyze, hdir]
    · intro hmem
      rw [BehaviorEngine.analyze] at hmem
      rcases List.mem_append.1 hmem with hmem' | hp'
      · rcases List.mem_append.1 hmem' with hd | hf
        · rw [hdir] at hd
          simp at hd
        · rcases mem_fatiguePart hf with h | h | h <;> simp at h
      · have := mem_posturePart hp'
        simp at this

/-- C3: in `BehaviorAnalyzer.analyze` of `benavior_engine.py` the
fatigue and posture tags are added independently of the direction rules:
`eyes_closed` iff the fatigue level is `drowsy`, `head_dropping` iff
`drowsy` and additionally `pitch > 35`, `rubbing_eyes` iff `tired` (and
a tired student is never tagged `head_dropping`), and `head_down` iff
`|pitch| > 40`. -/
theorem behavior_fatigue_posture_tags :
    ∀ (hp : HeadPose) (fatigue : String),
      ("eyes_closed" ∈ BehaviorEngine.analyze hp fatigue ↔ fatigue = "drowsy")
      ∧ ("head_dropping" ∈ BehaviorEngine.analyze hp fatigue ↔
          fatigue = "drowsy" ∧ hp.pitch > 35)
      ∧ ("rubbing_eyes" ∈ BehaviorEngine.analyze hp fatigue ↔ fatigue = "tired")
      ∧ ("head_down" ∈ BehaviorEngine.analyze hp fatigue ↔ |hp.pitch| > 40)
      ∧ (fatigue = "tired" → "head_dropping" ∉ BehaviorEngine.analyze hp fatigue) := by
  intro hp fatigue
  have hdirn : ∀ t : String, t ∉ directionTags → t ∉ BehaviorEngine.directionPart hp :=
    fun _ ht hmem => ht (mem_directionPart hmem)
  have hec : ("eyes_closed" ∈ BehaviorEngine.analyze hp fatigue ↔ fatigue = "drowsy") := by
    simp only [BehaviorEngine.analyze, List.mem_append]
    constructor
    · rintro ((hd | hf) | hpp)
      · exact absurd hd (hdirn _ (by decide))
      · unfold BehaviorEngine.fatiguePart at hf
        split_ifs at hf <;> simp_all
      · exact absurd (mem_posturePart hpp) (by decide)
    · intro h
      refine Or.inl (Or.inr ?_)
      simp [BehaviorEngine.fatiguePart, h]
  have hhd : ("head_dropping" ∈ BehaviorEngine.analyze hp fatigue ↔
      fatigue = "drowsy" ∧ hp.pitch > 35) := by
    simp only [BehaviorEngine.analyze, List.mem_append]
    constructor
    · rintro ((hd | hf) | hpp)
      · exact absurd hd (hdirn _ (by decide))
      · unfold BehaviorEngine.fatiguePart at hf
        split_ifs at hf <;> simp_all
      · exact absurd (mem_posturePart hpp) (by decide)
    · rintro ⟨h, h35⟩
      refine Or.inl (Or.inr ?_)
      simp [BehaviorEngine.fatiguePart, h, h35]
  have hre : ("rubbing_eyes" ∈ BehaviorEngine.analyze hp fatigue ↔ fatigue = "tired") := by
    simp only [BehaviorEngine.analyze, List.mem_append]
    constructor
    · rintro ((hd | hf) | hpp)
      · exact absurd hd (hdirn _ (by decide))
      · unfold BehaviorEngine.fatiguePart at hf
        split_ifs at hf <;> simp_all
      · exact absurd (mem_posturePart hpp) (by decide)
    · intro h
      have : fatigue ≠ "drowsy" := by simp [h]
      refine Or.inl (Or.inr ?_)
      simp [BehaviorEngine.fatiguePart, h, this]
  have hpd : ("head_down" ∈ BehaviorEngine.analyze hp fatigue ↔ |hp.pitch| > 40) := by
    simp only [BehaviorEngine.analyze, List.mem_append]
    constructor
    · rintro ((hd | hf) | hpp)
      · exact absurd hd (hdirn _ (by decide))
      · rcases mem_fatiguePart hf with h | h | h <;> simp at h
      · unfold BehaviorEngine.posturePart at hpp
        split_ifs at hpp <;> simp_all
    · intro h
      refine Or.inr ?_
      simp [BehaviorEngine.posturePart, h]
  refine ⟨hec, hhd, hre, hpd, ?_⟩
  intro ht hmem
  rcases hhd.1 hmem with ⟨hd, _⟩
  rw [ht] at hd
  simp at hd

theorem foldl_erase_keep [DecidableEq α] (x : α) (as : List α) (h : ∀ a ∈ as, a ≠ x) :
    ∀ l : List α, as.foldl List.erase (x :: l) = x :: as.foldl List.erase l := by
  induction as with
  | nil => intro l; rfl
  | cons a as' ih =>
    intro l
    have hax : a ≠ x := h a (List.mem_cons_self a as')
    simp only [List.foldl_cons]
    rw [List.erase_cons_tail (by simp [Ne.symm hax])]
    exact ih (fun b hb => h b (List.mem_cons_of_mem _ hb)) (l.erase a)

theorem foldl_erase_filter [DecidableEq α] (p : α → Bool) (l : List α) :
    (l.filter fun a => !p a).foldl List.erase l = l.filter p := by
  induction l with
  | nil => rfl
  | cons x xs ih =>
    by_cases hx : p x
    · rw [List.filter_cons_of_neg (by simp [hx]), List.filter_cons_of_pos hx,
        foldl_erase_keep x _ ?_ xs, ih]
      intro a ha hax
      have : (!p a) = true := (List.mem_filter.1 ha).2
      rw [hax] at this
      simp [hx] at this
    · rw [List.filter_cons_of_pos (by simp [hx]), List.filter_cons_of_neg hx]
      simp only [List.foldl_cons, List.erase_cons_head]
      exact ih

/-- C6: `ConnectionManager.broadcast` attempts delivery to every
registered connection of the classroom and afterwards removes exactly
the connections whose send failed: the surviving list is the
successful-send sublist in order, deliveries reach every succeeding
connection, other classrooms are untouched, a classroom with zero
registered connections is a no-op, and a connection whose send failed is
never present in the broadcast set afterwards. -/
theorem broadcast_fault_isolation {α : Type} [DecidableEq α]
    (st : String → List α) (ok : α → Bool) (cid : String) :
    (ConnectionManager.broadcast st ok cid).1 cid = (st cid).filter ok
    ∧ (ConnectionManager.broadcast st ok cid).2 = (st cid).filter ok
    ∧ (∀ c, c ≠ cid → (ConnectionManager.broadcast st ok cid).1 c = st c)
    ∧ (st cid = [] → ConnectionManager.broadcast st ok cid = (st, []))
    ∧ (∀ a, a ∈ st cid → ok a = false →
        a ∉ (ConnectionManager.broadcast st ok cid).1 cid) := by
  have hmain : (ConnectionManager.broadcast st ok cid).1 cid = (st cid).filter ok := by
    simp only [ConnectionManager.broadcast, if_pos rfl]
    exact foldl_erase_filter ok (st cid)
  refine ⟨hmain, rfl, ?_, ?_, ?_⟩
  · intro c hc
    simp only [ConnectionManager.broadcast, if_neg hc]
  · intro hnil
    unfold ConnectionManager.broadcast
    rw [hnil]
    refine Prod.ext ?_ rfl
    funext c
    by_cases hc : c = cid <;> simp [hc, hnil]
  · intro a _ hfail hmem
    rw [hmain] at hmem
    have := (List.mem_filter.1 hmem).2
    rw [hfail] at this
    exact Bool.false_ne_true this

theorem dqAppend_length (m : ℕ) (l : List α) (x : α) :
    (dqAppend m l x).length = min (l.length + 1) m := by
  simp [dqAppend]
  omega

theorem dqAppend_eq_reverse_take (m : ℕ) (l : List α) (x : α) :
    dqAppend m l x = ((x :: l.reverse).take m).reverse := by
  unfold dqAppend
  rw [show (x :: l.reverse) = (l ++ [x]).reverse by simp, List.reverse_take]
  simp

theorem take_append_take (a b : List α) (m : ℕ) :
    (a ++ b.take m).take m = (a ++ b).take m := by
  rw [List.take_append_eq_append_take, List.take_append_eq_append_take, List.take_take]
  congr 1
  rw [Nat.min_eq_left (Nat.sub_le m a.length)]

theorem foldl_dqAppend_reverse (m : ℕ) (xs : List α) :
    ∀ l : List α, l.length ≤ m →
      (xs.foldl (dqAppend m) l).reverse = (xs.reverse ++ l.reverse).take m := by
  induction xs with
  | nil =>
    intro l h
    simp [List.take_of_length_le, h]
  | cons x xs' ih =>
    intro l h
    simp only [List.foldl_cons, List.reverse_cons]
    rw [ih (dqAppend m l x) (by rw [dqAppend_length]; omega),
      dqAppend_eq_reverse_take]
    simp only [List.reverse_reverse]
    rw [List.append_assoc, List.singleton_append]
    exact take_append_take _ _ m

theorem foldl_dqAppend_nil (m : ℕ) (xs : List α) :
    xs.foldl (dqAppend m) [] = xs.drop (xs.length - m) := by
  have h := foldl_dqAppend_reverse m xs [] (by simp)
  have h2 := congrArg List.reverse h
  rw [List.reverse_reverse] at h2
  rw [h2]
  simp only [List.reverse_nil, List.append_nil]
  rw [List.reverse_take]
  simp

theorem foldl_add_history {ε : Type} (cid : String) (xs : List ε) :
    ∀ st : MemoryStore ε,
      (xs.foldl (fun s d => s.add_history cid d) st).history_data cid =
        xs.foldl (dqAppend st.max_history) (st.history_data cid) := by
  induction xs with
  | nil => intro st; rfl
  | cons x xs' ih =>
    intro st
    simp only [List.foldl_cons]
    rw [ih (st.add_history cid x)]
    simp [MemoryStore.add_history]

/-- C7: after inserting `max_history + 5` entries for one classroom into
a fresh store, `get_history` with `limit = max_history + 5` returns
exactly the last `max_history` inserted entries in insertion order, and
none of the 5 oldest entries is among them: the history is a bounded
FIFO ring of capacity `max_history`. -/
theorem history_ring_capacity :
    ∀ (m : ℕ) (cid : String),
      ((List.range (m + 5)).foldl (fun s d => s.add_history cid d)
          (MemoryStore.empty ℕ m)).get_history cid (m + 5) = List.range' 5 m
      ∧ (((List.range (m + 5)).foldl (fun s d => s.add_history cid d)
          (MemoryStore.empty ℕ m)).get_history cid (m + 5)).length = m
      ∧ ∀ i ∈ List.range 5,
          i ∉ ((List.range (m + 5)).foldl (fun s d => s.add_history cid d)
            (MemoryStore.empty ℕ m)).get_history cid (m + 5) := by
  intro m cid
  have hbuf : ((List.range (m + 5)).foldl (fun s d => s.add_history cid d)
      (MemoryStore.empty ℕ m)).history_data cid = List.range' 5 m := by
    rw [foldl_add_history]
    simp only [MemoryStore.empty]
    rw [foldl_dqAppend_nil]
    simp only [List.length_range]
    rw [show m + 5 - m = 5 by omega, show m + 5 = 5 + m by omega, List.range_add,
      List.drop_left' (by simp), List.range'_eq_map_range]
  have hget : ((List.range (m + 5)).foldl (fun s d => s.add_history cid d)
      (MemoryStore.empty ℕ m)).get_history cid (m + 5) = List.range' 5 m := by
    rw [MemoryStore.get_history, hbuf]
    simp only [if_neg (by omega : ¬m + 5 = 0)]
    rw [List.length_range']
    simp [show m - (m + 5) = 0 by omega]
  refine ⟨hget, by rw [hget, List.length_range'], ?_⟩
  intro i hi hmem
  rw [hget, List.mem_range'] at hmem
  rw [List.mem_range] at hi
  omega

/-- C8 counterexample: with one buffered entry, `get_history` at
`limit = 0` returns the whole history, not the empty list (Python's
`[-0:]` slice is `[0:]`). -/
theorem get_history_limit_zero_ctrex :
    ((MemoryStore.empty ℕ 100).add_history "room_101" 7).get_history "room_101" 0 = [7]
    ∧ ((MemoryStore.empty ℕ 100).add_history "room_101" 7).get_history "room_101" 0
        ≠ [] := by
  constructor <;> decide

/-- C8 as amended: for every positive limit, `get_history` returns the
most recent `min limit length` buffered entries in chronological order
(a suffix of the buffered history of that length), and at `limit = 0` it
returns the entire buffered history — in particular still the empty
list for a classroom with no buffered history. -/
theorem get_history_recent {ε : Type} (st : MemoryStore ε) (cid : String) (limit : ℕ) :
    (st.get_history cid (limit + 1) =
        ((st.history_data cid).reverse.take (limit + 1)).reverse
      ∧ (st.get_history cid (limit + 1)).IsSuffix (st.history_data cid)
      ∧ (st.get_history cid (limit + 1)).length =
          min (limit + 1) (st.history_data cid).length)
    ∧ st.get_history cid 0 = st.history_data cid := by
  have hdrop : st.get_history cid (limit + 1) =
      (st.history_data cid).drop ((st.history_data cid).length - (limit + 1)) := by
    rw [MemoryStore.get_history]
    simp [Nat.succ_ne_zero]
  refine ⟨⟨?_, ?_, ?_⟩, rfl⟩
  · rw [hdrop, List.reverse_take]
    simp
  · rw [hdrop]
    exact List.drop_suffix _ _
  · rw [hdrop, List.length_drop]
    omega

/-- C9: when an internal computation error aborts the per-student loop
of `analyze_classroom`, the cycle returns the error path and the
`MemoryStore` is untouched — `set_latest` and `add_history` run only in
the deferred commit of the success path. -/
theorem analyze_abort_preserves_store (fail : Student → Bool) (fs : EarMap)
    (store : MemoryStore Response) (req : Request)
    (h : (runStudents fail fs req.students).2 = none) :
    (analyze_classroom fail fs store req).1 = none
    ∧ (analyze_classroom fail fs store req).2.2 = store := by
  unfold analyze_classroom
  rcases hr : runStudents fail fs req.students with ⟨fs', r⟩
  rw [hr] at h
  cases r with
  | none => exact ⟨rfl, rfl⟩
  | some sts => simp at h

/-- C9 witness: a one-student batch whose student's processing raises
leaves a fresh store exactly as it was. -/
theorem analyze_abort_preserves_store_witness :
    (analyze_classroom failB (fun _ => []) (MemoryStore.empty Response 100) reqB).1 = none
    ∧ (analyze_classroom failB (fun _ => []) (MemoryStore.empty Response 100) reqB).2.2 =
        MemoryStore.empty Response 100 :=
  analyze_abort_preserves_store failB (fun _ => []) (MemoryStore.empty Response 100) reqB rfl

/-- C10: an aborted cycle does not roll back the fatigue windows — when
the loop fails at a student after a prefix has been classified, the
returned ear-window map is the one the prefix's appends produced; and
concretely, after a failed run of a two-student batch, re-submitting
student `A`'s sample classifies `A` as `drowsy` where the pre-failure
map would have classified `A` as `alert`. -/
theorem fatigue_window_not_rolled_back :
    (∀ (fail : Student → Bool) (fs : EarMap) (pre : List Student) (bad : Student)
        (rest : List Student),
        (∀ s ∈ pre, fail s = false) → fail bad = true →
        runStudents fail fs (pre ++ bad :: rest) =
          (pre.foldl (fun m s => (processStudent m s).1) fs, none))
    ∧ (runStudents failB fsA [studentA, studentB]).2 = none
    ∧ (MainFatigue.predict ((runStudents failB fsA [studentA, studentB]).1)
        (1/10) (1/20) "A").2 = "drowsy"
    ∧ (MainFatigue.predict fsA (1/10) (1/20) "A").2 = "alert" := by
  refine ⟨?_, ?_, ?_, ?_⟩
  · intro fail fs pre bad rest
    induction pre generalizing fs with
    | nil =>
      intro _ hbad
      simp [runStudents, hbad]
    | cons s pre' ih =>
      intro hpre hbad
      have hs : fail s = false := hpre s (List.mem_cons_self s pre')
      rw [List.cons_append, runStudents, hs]
      simp only [Bool.false_eq_true, if_false]
      rw [ih _ (fun b hb => hpre b (List.mem_cons_of_mem _ hb)) hbad]
      simp [List.foldl_cons]
  · rfl
  · have h1 : (runStudents failB fsA [studentA, studentB]).1 =
        (MainFatigue.predict fsA (1/10) (1/20) "A").1 := rfl
    rw [h1]
    norm_num [MainFatigue.predict, fsA, dqAppend, List.replicate,
      List.countP, List.countP.go]
  · rfl

end ClassroomAI
